import Mathlib

/-!
# Verification of the data-integrity checker

A shallow embedding of `src/main.py` (`DataIntegrityChecker`): loading a CSV
table, a missing-value check, a duplicate-row check, and an Isolation-Forest
outlier check, each wrapped in `try/except` that turns internal exceptions
into printed messages.

Modelling conventions:
* Printed output is modelled as a list of structured messages (`Msg`), one
  constructor per distinct print statement of the source.
* The filesystem is a map from paths to optional file contents; a missing
  path is Python's `FileNotFoundError`.
* `pd.read_csv` (an external library call) is modelled as `read_csv` below:
  blank-line-free empty input raises `EmptyDataError`; a data row with more
  fields than the header raises `ParserError`; short rows are padded with the
  missing marker; a column whose non-missing fields all parse as numbers gets
  numeric dtype and its fields become rationals, otherwise its fields stay
  strings.  Scientific notation and textual NaN spellings are not modelled.
* Floating-point column statistics are embedded as exact real arithmetic.
* `sklearn`'s `IsolationForest` is external to the repository; it is modelled
  at its interface (`IsolationForestModel`): a deterministic function of the
  contamination rate, the random seed and the input matrix (deterministic
  because the source pins `random_state=42`), returning one ±1 label per row.
-/

namespace DataIntegrity

/-- A table cell: a numeric value, a text value, or the missing marker
(pandas `NaN`). -/
inductive Cell where
  | num (q : ℚ)
  | str (s : String)
  | na
deriving DecidableEq, Repr

/-- An in-memory table: column names plus rows of cells
(the pandas `DataFrame` produced by `pd.read_csv`). -/
structure Table where
  cols : List String
  rows : List (List Cell)
deriving DecidableEq, Repr

/-- The load-time failures of `load_data`: `FileNotFoundError`,
`pd.errors.EmptyDataError`, `pd.errors.ParserError`. -/
inductive LoadError where
  | notFound
  | emptyData
  | parserError
deriving DecidableEq, Repr

/-- Exceptions that can arise inside a check body: `AttributeError`
(method call on `None` data) and the `ValueError`s sklearn raises on
empty or non-finite input. -/
inductive PyErr where
  | attributeError
  | valueError
deriving DecidableEq, Repr

/-- Structured rendering of the script's printed lines. -/
inductive Msg where
  | loaded
  | loadFailed (e : LoadError)
  | missingWarning (counts : List (String × ℕ))
  | noMissing
  | dupWarning (n : ℕ)
  | noDup
  | outlierWarning (n : ℕ)
  | noOutliers
  | missingError (e : PyErr)
  | dupError (e : PyErr)
  | outlierError (e : PyErr)
deriving DecidableEq, Repr

/-! ## CSV reading (model of `pd.read_csv`) -/

/-- Split a character list at every occurrence of `sep` (the pieces keep
their order, separators are dropped; `n` separators give `n+1` pieces). -/
def splitOnCharAux (sep : Char) : List Char → List Char → List (List Char)
  | [], acc => [acc.reverse]
  | c :: cs, acc =>
    if c = sep then acc.reverse :: splitOnCharAux sep cs []
    else splitOnCharAux sep cs (c :: acc)

/-- Split a character list at every occurrence of `sep`. -/
def splitOnChar (sep : Char) (cs : List Char) : List (List Char) :=
  splitOnCharAux sep cs []

/-- Non-blank lines of a file (pandas skips blank lines by default). -/
def csvLines (s : String) : List (List Char) :=
  (splitOnChar '\n' s.data).filter (fun l => l ≠ [])

/-- Parse a non-empty all-digit character list as a natural number. -/
def parseNatDigits? (cs : List Char) : Option ℕ :=
  if cs.isEmpty then none
  else if cs.all Char.isDigit then
    some (cs.foldl (fun acc c => acc * 10 + (c.toNat - Char.toNat '0')) 0)
  else none

/-- Parse an optionally `-`-signed digit string as an integer. -/
def parseInt? : List Char → Option ℤ
  | '-' :: rest => (parseNatDigits? rest).map (fun n => -(n : ℤ))
  | cs => (parseNatDigits? cs).map (fun n => (n : ℤ))

/-- Parse a decimal number: an optional sign, digits, an optional fractional
part.  Returns `none` for anything else (such fields stay text; scientific
notation is not modelled). -/
def parseNumber? (cs : List Char) : Option ℚ :=
  match splitOnChar '.' cs with
  | [x] => (parseInt? x).map (fun n => (n : ℚ))
  | [a, b] => (parseInt? (a ++ b)).map (fun n => (n : ℚ) / (10 : ℚ) ^ b.length)
  | _ => none

/-- Column `j` has numeric dtype: every non-empty field in it parses as a
number (a column of only empty fields is pandas `float64`, hence numeric). -/
def inferNumeric (padded : List (List (List Char))) (j : ℕ) : Bool :=
  padded.all (fun r => r.getD j [] = [] || (parseNumber? (r.getD j [])).isSome)

/-- Turn one raw field into a cell, given its column's dtype: empty fields
become the missing marker; fields of a numeric column become rationals;
everything else stays text. -/
def mkCell (numeric : Bool) (f : List Char) : Cell :=
  if f = [] then Cell.na
  else if numeric then
    match parseNumber? f with
    | some q => Cell.num q
    | none => Cell.str (String.mk f)
  else Cell.str (String.mk f)

/-- Model of `pd.read_csv`: first non-blank line is the header, each further
line a data row; a row with more fields than the header is a parse error,
shorter rows are padded with missing values; column dtypes are inferred. -/
def read_csv (s : String) : Except LoadError Table :=
  match csvLines s with
  | [] => Except.error LoadError.emptyData
  | header :: dataLines =>
    let cols := splitOnChar ',' header
    let M := cols.length
    let rawRows := dataLines.map (fun l => splitOnChar ',' l)
    if rawRows.any (fun r => M < r.length) then Except.error LoadError.parserError
    else
      let padded := rawRows.map (fun r => r ++ List.replicate (M - r.length) [])
      Except.ok
        ⟨cols.map (fun f => String.mk f),
         padded.map (fun r =>
           (List.range M).map (fun j => mkCell (inferNumeric padded j) (r.getD j [])))⟩

/-! ## Table views -/

/-- The cells of column `j`, top to bottom. -/
def colCells (t : Table) (j : ℕ) : List Cell :=
  t.rows.map (fun r => r.getD j Cell.na)

/-- Column `j` is numeric for `select_dtypes(include=[np.number])`: every
cell is a number or the missing marker (a float `NaN` in the source). -/
def isNumericCol (t : Table) (j : ℕ) : Bool :=
  (colCells t j).all (fun c =>
    match c with
    | Cell.str _ => false
    | _ => true)

/-- Indices of the numeric columns, in order. -/
def numericIdx (t : Table) : List ℕ :=
  (List.range t.cols.length).filter (isNumericCol t)

/-- The rational value of a numeric cell.  Only consulted on `num` cells:
the outlier pipeline rejects tables whose numeric region holds a missing
marker (sklearn raises `ValueError` on `NaN`) before values are read. -/
def cellVal : Cell → ℚ
  | Cell.num q => q
  | _ => 0

/-- The numeric subview of the table, row-major
(`self.data.select_dtypes(include=[np.number])`). -/
def numericRows (t : Table) : List (List ℚ) :=
  t.rows.map (fun r => (numericIdx t).map (fun j => cellVal (r.getD j Cell.na)))

/-- Does the numeric region contain a missing marker (a `NaN`)? -/
def hasNaNumeric (t : Table) : Bool :=
  (numericIdx t).any (fun j => (colCells t j).any (fun c => c = Cell.na))

/-- The numeric subview as a real matrix (floats embedded as reals). -/
noncomputable def realRows (t : Table) : List (List ℝ) :=
  (numericRows t).map (fun r => r.map (fun q => (Rat.cast q : ℝ)))

/-! ## Column statistics (model of `StandardScaler`) -/

/-- Arithmetic mean of a list of reals (0 for the empty list). -/
noncomputable def mean (xs : List ℝ) : ℝ :=
  xs.sum / xs.length

/-- Population variance (`ddof = 0`, as `StandardScaler` uses). -/
noncomputable def variancePop (xs : List ℝ) : ℝ :=
  ((xs.map (fun x => (x - mean xs) ^ 2)).sum) / xs.length

/-- Population standard deviation. -/
noncomputable def stdPop (xs : List ℝ) : ℝ :=
  Real.sqrt (variancePop xs)

/-- The divisor `StandardScaler` uses: the standard deviation, with an
exactly-zero deviation replaced by 1 (`_handle_zeros_in_scale`). -/
noncomputable def scaleOf (xs : List ℝ) : ℝ :=
  if stdPop xs = 0 then 1 else stdPop xs

/-- Standardize one column: subtract its mean, divide by its scale. -/
noncomputable def standardizeList (xs : List ℝ) : List ℝ :=
  xs.map (fun x => (x - mean xs) / scaleOf xs)

/-- Column `j` of a row-major real matrix. -/
noncomputable def column (rows : List (List ℝ)) (j : ℕ) : List ℝ :=
  rows.map (fun r => r.getD j 0)

/-- `self.scaler.fit_transform`: standardize every column of a row-major
matrix, fitting each column's mean and scale from the matrix itself. -/
noncomputable def scaledRows (rows : List (List ℝ)) : List (List ℝ) :=
  rows.map (fun r =>
    (List.range r.length).map (fun j =>
      (r.getD j 0 - mean (column rows j)) / scaleOf (column rows j)))

/-- The per-column parameters `fit_transform` stores in the scaler. -/
noncomputable def fittedParams (rows : List (List ℝ)) (m : ℕ) : List ℝ × List ℝ :=
  ((List.range m).map (fun j => mean (column rows j)),
   (List.range m).map (fun j => scaleOf (column rows j)))

/-! ## The Isolation Forest interface -/

/-- Interface model of `sklearn.ensemble.IsolationForest` followed by
`predict` on the training matrix: a deterministic function of the
contamination rate, the random seed and the matrix (the source fixes
`random_state=42`, making the library call reproducible), producing one
label per input row, each label `-1` (outlier) or `1` (inlier). -/
structure IsolationForestModel where
  predict : ℚ → ℕ → List (List ℝ) → List Int
  length_predict : ∀ c s X, (predict c s X).length = X.length
  mem_predict : ∀ c s X v, v ∈ predict c s X → v = -1 ∨ v = 1

/-- The labels the forest assigns to the standardized numeric rows of `t`,
with the source's constants: `contamination=0.01`, `random_state=42`. -/
noncomputable def outlierLabels (F : IsolationForestModel) (t : Table) : List Int :=
  F.predict (1 / 100) 42 (scaledRows (realRows t))

/-- `np.sum(outliers == -1)`: how many rows are flagged. -/
noncomputable def numOutliers (F : IsolationForestModel) (t : Table) : ℕ :=
  (outlierLabels F t).count (-1)

/-! ## The checker object -/

/-- The `DataIntegrityChecker` instance state: the path given to
`__init__`, the loaded data (initially `None`), and the `StandardScaler`'s
fitted parameters (initially unfitted). -/
structure DataIntegrityChecker where
  file_path : String
  data : Option Table
  scaler : Option (List ℝ × List ℝ)

/-- `__init__(file_path)`. -/
def DataIntegrityChecker.mkChecker (p : String) : DataIntegrityChecker :=
  ⟨p, none, none⟩

/-- A filesystem: maps a path to the file's contents, if the file exists. -/
def FS : Type := String → Option String

/-- `load_data`: read the CSV at `file_path`.  On success store the table
and print a confirmation; on failure print a diagnostic and re-raise (the
third component carries the propagated exception). -/
def DataIntegrityChecker.load_data (fs : FS) (c : DataIntegrityChecker) :
    DataIntegrityChecker × List Msg × Option LoadError :=
  match fs c.file_path with
  | none => (c, [Msg.loadFailed LoadError.notFound], some LoadError.notFound)
  | some s =>
    match read_csv s with
    | Except.ok t => ({ c with data := some t }, [Msg.loaded], none)
    | Except.error e => (c, [Msg.loadFailed e], some e)

/-! ## Missing-value check -/

/-- `self.data.isnull().sum()`: for each column, its name paired with the
number of missing cells in it. -/
def missingCounts (t : Table) : List (String × ℕ) :=
  (List.range t.cols.length).map (fun j =>
    (t.cols.getD j "", (colCells t j).count Cell.na))

/-- `self.data.isnull().sum().sum()`: total missing cells. -/
def totalMissing (t : Table) : ℕ :=
  ((missingCounts t).map Prod.snd).sum

/-- The `try` body of `check_missing_values`; raises `AttributeError` when
`self.data` is `None`. -/
def missingBody (d : Option Table) : Except PyErr (List Msg) :=
  match d with
  | none => Except.error PyErr.attributeError
  | some t =>
    if 0 < totalMissing t then
      Except.ok [Msg.missingWarning (missingCounts t)]
    else
      Except.ok [Msg.noMissing]

/-- `check_missing_values`: run the body, catching any exception and
printing it instead of propagating. -/
def DataIntegrityChecker.check_missing_values (c : DataIntegrityChecker) :
    DataIntegrityChecker × List Msg :=
  match missingBody c.data with
  | Except.ok msgs => (c, msgs)
  | Except.error e => (c, [Msg.missingError e])

/-! ## Duplicate check -/

/-- `self.data.duplicated()`: flag each row that equals some earlier row
(`keep=first`); `seen` accumulates the rows already passed. -/
def dupFlagsAux (seen : List (List Cell)) : List (List Cell) → List Bool
  | [] => []
  | r :: rs => seen.contains r :: dupFlagsAux (r :: seen) rs

/-- The duplicate flags of a row list. -/
def dupFlags (rows : List (List Cell)) : List Bool :=
  dupFlagsAux [] rows

/-- `self.data.duplicated().sum()`: number of duplicate rows. -/
def numDups (t : Table) : ℕ :=
  (dupFlags t.rows).count true

/-- The `try` body of `check_duplicates`; raises `AttributeError` when
`self.data` is `None`. -/
def dupBody (d : Option Table) : Except PyErr (List Msg) :=
  match d with
  | none => Except.error PyErr.attributeError
  | some t =>
    if (dupFlags t.rows).any (fun b => b) then
      Except.ok [Msg.dupWarning (numDups t)]
    else
      Except.ok [Msg.noDup]

/-- `check_duplicates`: run the body, catching any exception. -/
def DataIntegrityChecker.check_duplicates (c : DataIntegrityChecker) :
    DataIntegrityChecker × List Msg :=
  match dupBody c.data with
  | Except.ok msgs => (c, msgs)
  | Except.error e => (c, [Msg.dupError e])

/-! ## Outlier check -/

/-- The `try` body of `check_outliers`.  Raises `AttributeError` on `None`
data; raises `ValueError` (from sklearn's input validation) when the
numeric subview has no rows, has no columns, or contains a `NaN`.
Otherwise standardizes the numeric rows, fits the forest with
`contamination=0.01, random_state=42`, counts the `-1` labels, and
reports; the scaler keeps the fitted per-column parameters. -/
noncomputable def outliersBody (F : IsolationForestModel) (d : Option Table) :
    Except PyErr (List Msg × (List ℝ × List ℝ)) :=
  match d with
  | none => Except.error PyErr.attributeError
  | some t =>
    if t.rows.isEmpty then Except.error PyErr.valueError
    else if (numericIdx t).isEmpty then Except.error PyErr.valueError
    else if hasNaNumeric t then Except.error PyErr.valueError
    else
      Except.ok
        ((if 0 < numOutliers F t then [Msg.outlierWarning (numOutliers F t)]
          else [Msg.noOutliers]),
         fittedParams (realRows t) (numericIdx t).length)

/-- `check_outliers`: run the body, catching any exception; on success the
scaler's fitted parameters are stored on the instance. -/
noncomputable def DataIntegrityChecker.check_outliers (F : IsolationForestModel)
    (c : DataIntegrityChecker) : DataIntegrityChecker × List Msg :=
  match outliersBody F c.data with
  | Except.ok (msgs, params) => ({ c with scaler := some params }, msgs)
  | Except.error e => (c, [Msg.outlierError e])

/-! ## Orchestrator -/

/-- `run_checks`: load, then the three checks in order.  A load failure
propagates (third component) and skips every check; check failures never
propagate. -/
noncomputable def DataIntegrityChecker.run_checks (fs : FS)
    (F : IsolationForestModel) (c : DataIntegrityChecker) :
    DataIntegrityChecker × List Msg × Option LoadError :=
  match c.load_data fs with
  | (c1, log1, some e) => (c1, log1, some e)
  | (c1, log1, none) =>
    let r2 := c1.check_missing_values
    let r3 := r2.1.check_duplicates
    let r4 := r3.1.check_outliers F
    (r4.1, log1 ++ r2.2 ++ r3.2 ++ r4.2, none)

/-! ## Concrete fixtures -/

/-- A concrete inhabitant of the forest interface (it labels every row an
inlier), used to instantiate theorems at concrete inputs. -/
def constForest : IsolationForestModel where
  predict := fun _ _ X => X.map (fun _ => 1)
  length_predict := by intro c s X; simp
  mem_predict := by
    intro c s X v hv
    rcases List.mem_map.mp hv with ⟨r, _, hv1⟩
    exact Or.inr hv1.symm

/-- A table with only text columns (no numeric column). -/
def tText : Table :=
  ⟨["a", "b"], [[Cell.str "x", Cell.str "y"], [Cell.str "z", Cell.str "w"]]⟩

/-- A filesystem whose every path holds the text-only CSV. -/
def fsText : FS := fun _ => some "a,b\nx,y\nz,w"

/-- A fully numeric 3×2 table. -/
def tNum : Table :=
  ⟨["a", "b"],
   [[Cell.num 1, Cell.num 2], [Cell.num 3, Cell.num 4], [Cell.num 100, Cell.num 6]]⟩

/-- A filesystem whose every path holds the numeric CSV. -/
def fsNum : FS := fun _ => some "a,b\n1,2\n3,4\n100,6"

/-- A checker that has already loaded the numeric table. -/
def cNum : DataIntegrityChecker := ⟨"data.csv", some tNum, none⟩

/-- A table with two missing cells and one duplicated row. -/
def tMix : Table :=
  ⟨["a", "b"],
   [[Cell.num 1, Cell.na], [Cell.num 1, Cell.na], [Cell.num 2, Cell.str "x"]]⟩

/-- A checker that has already loaded the text-only table. -/
def cText : DataIntegrityChecker := ⟨"p", some tText, none⟩

/-- A checker that has already loaded the mixed table. -/
def cMix : DataIntegrityChecker := ⟨"p", some tMix, none⟩

/-! ## Helper lemmas -/

theorem getD_map_range {α : Type _} (f : ℕ → α) (d : α) {n j : ℕ} (h : j < n) :
    ((List.range n).map f).getD j d = f j := by
  have hlen : j < ((List.range n).map f).length := by simpa using h
  rw [List.getD_eq_getElem _ _ hlen]
  simp

theorem check_missing_values_state (c : DataIntegrityChecker) :
    c.check_missing_values.1 = c := by
  cases hb : missingBody c.data <;>
    simp [DataIntegrityChecker.check_missing_values, hb]

theorem check_duplicates_state (c : DataIntegrityChecker) :
    c.check_duplicates.1 = c := by
  cases hb : dupBody c.data <;>
    simp [DataIntegrityChecker.check_duplicates, hb]

theorem check_outliers_state_data (F : IsolationForestModel)
    (c : DataIntegrityChecker) : (c.check_outliers F).1.data = c.data := by
  cases hb : outliersBody F c.data with
  | error e => simp [DataIntegrityChecker.check_outliers, hb]
  | ok p =>
    obtain ⟨msgs, params⟩ := p
    simp [DataIntegrityChecker.check_outliers, hb]

theorem check_outliers_msgs_congr (F : IsolationForestModel)
    {c c' : DataIntegrityChecker} (h : c.data = c'.data) :
    (c.check_outliers F).2 = (c'.check_outliers F).2 := by
  unfold DataIntegrityChecker.check_outliers
  rw [h]
  cases hb : outliersBody F c'.data with
  | error e => rfl
  | ok p => obtain ⟨msgs, params⟩ := p; rfl

theorem getD_mem {α : Type _} (l : List α) (d : α) {i : ℕ} (h : i < l.length) :
    l.getD i d ∈ l := by
  rw [List.getD_eq_getElem _ _ h]
  exact List.getElem_mem h

theorem mem_take_iff_getD {α : Type _} (l : List α) (d : α) (i : ℕ)
    (hi : i ≤ l.length) (a : α) :
    a ∈ l.take i ↔ ∃ k, k < i ∧ l.getD k d = a := by
  constructor
  · intro ha
    rcases List.mem_iff_getElem.mp ha with ⟨k, hk, hval⟩
    have hlen : (l.take i).length = i := by simp [hi]
    have hki : k < i := hlen ▸ hk
    have hkl : k < l.length := lt_of_lt_of_le hki hi
    refine ⟨k, hki, ?_⟩
    rw [List.getD_eq_getElem _ _ hkl, ← List.getElem_take l]
    exact hval
  · rintro ⟨k, hki, hval⟩
    have hkl : k < l.length := lt_of_lt_of_le hki hi
    rw [List.getD_eq_getElem _ _ hkl] at hval
    have hk2 : k < (l.take i).length := by simp [hi]; omega
    have hte : (l.take i)[k] = l[k] := List.getElem_take l
    rw [← hval, ← hte]
    exact List.getElem_mem hk2

theorem list_eq_iff_getD {r1 r2 : List Cell} {m : ℕ}
    (h1 : r1.length = m) (h2 : r2.length = m) :
    r1 = r2 ↔ ∀ j, j < m → r1.getD j Cell.na = r2.getD j Cell.na := by
  constructor
  · rintro rfl j hj; rfl
  · intro hp
    refine List.ext_getElem (h1.trans h2.symm) ?_
    intro j hj1 hj2
    have hjm : j < m := h1 ▸ hj1
    have := hp j hjm
    rwa [List.getD_eq_getElem _ _ hj1, List.getD_eq_getElem _ _ hj2] at this

theorem dupFlagsAux_length (rows : List (List Cell)) :
    ∀ seen, (dupFlagsAux seen rows).length = rows.length := by
  induction rows with
  | nil => intro seen; rfl
  | cons r rs ih => intro seen; simp [dupFlagsAux, ih]

theorem dupFlagsAux_getD (rows : List (List Cell)) :
    ∀ (seen : List (List Cell)) (i : ℕ), i < rows.length →
      ((dupFlagsAux seen rows).getD i false = true ↔
        rows.getD i [] ∈ seen ++ rows.take i) := by
  induction rows with
  | nil => intro seen i hi; simp at hi
  | cons r rs ih =>
    intro seen i hi
    cases i with
    | zero =>
      simp only [dupFlagsAux, List.getD_cons_zero, List.take_zero, List.append_nil]
      exact List.elem_iff
    | succ i =>
      have hi' : i < rs.length := by simpa using hi
      have hrec := ih (r :: seen) i hi'
      simp only [dupFlagsAux, List.getD_cons_succ, List.take_succ_cons] at hrec ⊢
      rw [hrec]
      simp [List.mem_append, List.mem_cons]
      tauto

theorem sum_map_div (xs : List ℝ) (f : ℝ → ℝ) (d : ℝ) :
    (xs.map (fun x => f x / d)).sum = (xs.map f).sum / d := by
  induction xs with
  | nil => simp
  | cons a l ih => simp [ih, add_div]

theorem sum_map_sub_const (xs : List ℝ) (m : ℝ) :
    (xs.map (fun x => x - m)).sum = xs.sum - xs.length * m := by
  induction xs with
  | nil => simp
  | cons a l ih =>
    simp only [List.map_cons, List.sum_cons, ih, List.length_cons]
    push_cast
    ring

theorem length_standardizeList (xs : List ℝ) :
    (standardizeList xs).length = xs.length := by
  simp [standardizeList]

theorem sum_standardizeList (xs : List ℝ) (hne : xs ≠ []) :
    (standardizeList xs).sum = 0 := by
  have hn : (xs.length : ℝ) ≠ 0 :=
    Nat.cast_ne_zero.mpr (List.length_pos.mpr hne).ne'
  unfold standardizeList
  rw [sum_map_div xs (fun x => x - mean xs) (scaleOf xs), sum_map_sub_const]
  unfold mean
  have hc : (xs.length : ℝ) * (xs.sum / xs.length) = xs.sum := by
    field_simp
  rw [hc, sub_self, zero_div]

theorem mean_standardizeList (xs : List ℝ) (hne : xs ≠ []) :
    mean (standardizeList xs) = 0 := by
  unfold mean
  rw [sum_standardizeList xs hne, zero_div]

theorem variancePop_nonneg (xs : List ℝ) : 0 ≤ variancePop xs := by
  unfold variancePop
  apply div_nonneg _ (Nat.cast_nonneg _)
  apply List.sum_nonneg
  intro x hx
  rcases List.mem_map.mp hx with ⟨y, -, rfl⟩
  positivity

theorem variancePop_nil : variancePop ([] : List ℝ) = 0 := by
  simp [variancePop]

theorem scaleOf_spec (xs : List ℝ) (h : variancePop xs ≠ 0) :
    scaleOf xs ≠ 0 ∧ scaleOf xs ^ 2 = variancePop xs := by
  have hv : 0 < variancePop xs := lt_of_le_of_ne (variancePop_nonneg xs) (Ne.symm h)
  have hs : stdPop xs ≠ 0 := by
    unfold stdPop
    exact Real.sqrt_ne_zero'.mpr hv
  refine ⟨?_, ?_⟩
  · unfold scaleOf
    rw [if_neg hs]
    exact hs
  · unfold scaleOf
    rw [if_neg hs]
    unfold stdPop
    exact Real.sq_sqrt hv.le

theorem variancePop_standardizeList (xs : List ℝ) (h : variancePop xs ≠ 0) :
    variancePop (standardizeList xs) = 1 := by
  have hne : xs ≠ [] := by rintro rfl; exact h variancePop_nil
  have hn : (xs.length : ℝ) ≠ 0 :=
    Nat.cast_ne_zero.mpr (List.length_pos.mpr hne).ne'
  obtain ⟨hs, hsq⟩ := scaleOf_spec xs h
  have hmean := mean_standardizeList xs hne
  have hS : (xs.map (fun x => (x - mean xs) ^ 2)).sum ≠ 0 := by
    intro h0
    apply h
    unfold variancePop
    rw [h0, zero_div]
  unfold variancePop
  rw [hmean, length_standardizeList]
  simp only [sub_zero]
  unfold standardizeList
  rw [List.map_map]
  have hcomp : ((fun y => y ^ 2) ∘ fun x => (x - mean xs) / scaleOf xs) =
      fun x => ((x - mean xs) ^ 2) / (scaleOf xs ^ 2) := by
    funext x
    simp [div_pow]
  rw [hcomp, sum_map_div xs (fun x => (x - mean xs) ^ 2) (scaleOf xs ^ 2), hsq]
  have hvdef : variancePop xs = (xs.map (fun x => (x - mean xs) ^ 2)).sum / xs.length :=
    rfl
  rw [hvdef]
  field_simp

theorem column_scaledRows (rows : List (List ℝ)) (m : ℕ)
    (hrect : ∀ r ∈ rows, r.length = m) {j : ℕ} (hj : j < m) :
    column (scaledRows rows) j = standardizeList (column rows j) := by
  unfold column scaledRows standardizeList
  rw [List.map_map, List.map_map]
  apply List.map_congr_left
  intro r hr
  simp only [Function.comp]
  rw [hrect r hr, getD_map_range _ _ hj]
  simp [column]

theorem realRows_rect (t : Table) :
    ∀ r ∈ realRows t, r.length = (numericIdx t).length := by
  intro r hr
  unfold realRows at hr
  rcases List.mem_map.mp hr with ⟨row, hrow, rfl⟩
  rw [List.length_map]
  unfold numericRows at hrow
  rcases List.mem_map.mp hrow with ⟨row0, -, rfl⟩
  rw [List.length_map]

theorem length_realRows (t : Table) : (realRows t).length = t.rows.length := by
  simp [realRows, numericRows]

theorem length_outlierLabels (F : IsolationForestModel) (t : Table) :
    (outlierLabels F t).length = t.rows.length := by
  unfold outlierLabels
  rw [F.length_predict]
  unfold scaledRows
  rw [List.length_map, length_realRows]

/-! ## Claims -/

/-- C1: a path that refers to no existing file makes `load_data` print a
diagnostic and raise the not-found failure, and `run_checks` on such a path
aborts with that failure before any of the three checks runs: its output
holds no missing-value, duplicate, or outlier diagnostic. -/
theorem C1_notFound_no_checks (fs : FS) (F : IsolationForestModel)
    (c : DataIntegrityChecker) (h : fs c.file_path = none) :
    c.load_data fs = (c, [Msg.loadFailed LoadError.notFound], some LoadError.notFound) ∧
    c.run_checks fs F = (c, [Msg.loadFailed LoadError.notFound], some LoadError.notFound) := by
  have hl : c.load_data fs =
      (c, [Msg.loadFailed LoadError.notFound], some LoadError.notFound) := by
    simp [DataIntegrityChecker.load_data, h]
  exact ⟨hl, by simp [DataIntegrityChecker.run_checks, hl]⟩

theorem C1_notFound_no_checks_witness :
    ((fun _ => none : FS) ((DataIntegrityChecker.mkChecker "data.csv").file_path) = none) ∧
    (DataIntegrityChecker.mkChecker "data.csv").run_checks (fun _ => none) constForest =
      (DataIntegrityChecker.mkChecker "data.csv",
        [Msg.loadFailed LoadError.notFound], some LoadError.notFound) :=
  ⟨rfl, (C1_notFound_no_checks (fun _ => none) constForest
    (DataIntegrityChecker.mkChecker "data.csv") rfl).2⟩

/-- C2: `load_data` either stores a table and prints the confirmation, or
fails with exactly one of the three load errors, printing a diagnostic and
propagating the failure; an empty file yields the `EmptyDataError`. -/
theorem C2_load_contract (fs : FS) (c : DataIntegrityChecker) :
    ((∃ t, c.load_data fs = ({ c with data := some t }, [Msg.loaded], none)) ∨
      (∃ e, c.load_data fs = (c, [Msg.loadFailed e], some e))) ∧
    (fs c.file_path = some "" →
      c.load_data fs =
        (c, [Msg.loadFailed LoadError.emptyData], some LoadError.emptyData)) := by
  constructor
  · cases hf : fs c.file_path with
    | none =>
      exact Or.inr ⟨LoadError.notFound, by simp [DataIntegrityChecker.load_data, hf]⟩
    | some s =>
      cases hr : read_csv s with
      | ok t =>
        exact Or.inl ⟨t, by simp [DataIntegrityChecker.load_data, hf, hr]⟩
      | error e =>
        exact Or.inr ⟨e, by simp [DataIntegrityChecker.load_data, hf, hr]⟩
  · intro hf
    have hr : read_csv "" = Except.error LoadError.emptyData := rfl
    simp [DataIntegrityChecker.load_data, hf, hr]

theorem C2_load_contract_witness :
    DataIntegrityChecker.load_data (fun _ => some "") (DataIntegrityChecker.mkChecker "p") =
      (DataIntegrityChecker.mkChecker "p",
        [Msg.loadFailed LoadError.emptyData], some LoadError.emptyData) :=
  (C2_load_contract (fun _ => some "") (DataIntegrityChecker.mkChecker "p")).2 rfl

/-- C10: calling any of the three checks on a checker whose data was never
loaded (still `None`) is caught inside the check: it returns normally with
an error message and the internal `AttributeError` is not propagated. -/
theorem C10_checks_on_none (F : IsolationForestModel) (c : DataIntegrityChecker)
    (h : c.data = none) :
    c.check_missing_values = (c, [Msg.missingError PyErr.attributeError]) ∧
    c.check_duplicates = (c, [Msg.dupError PyErr.attributeError]) ∧
    c.check_outliers F = (c, [Msg.outlierError PyErr.attributeError]) := by
  refine ⟨?_, ?_, ?_⟩
  · simp [DataIntegrityChecker.check_missing_values, h, missingBody]
  · simp [DataIntegrityChecker.check_duplicates, h, dupBody]
  · simp [DataIntegrityChecker.check_outliers, h, outliersBody]

theorem C10_checks_on_none_witness :
    (DataIntegrityChecker.mkChecker "p").check_missing_values =
      (DataIntegrityChecker.mkChecker "p", [Msg.missingError PyErr.attributeError]) ∧
    (DataIntegrityChecker.mkChecker "p").check_duplicates =
      (DataIntegrityChecker.mkChecker "p", [Msg.dupError PyErr.attributeError]) ∧
    (DataIntegrityChecker.mkChecker "p").check_outliers constForest =
      (DataIntegrityChecker.mkChecker "p", [Msg.outlierError PyErr.attributeError]) :=
  C10_checks_on_none constForest (DataIntegrityChecker.mkChecker "p") rfl

/-- C3: the missing-value check counts, per column, the cells equal to the
missing marker; when the total is nonzero it prints a warning listing the
per-column counts (the entry under column `C` is the number of rows whose
`C` cell is missing), and when the total is zero it prints the all-clear
message. -/
theorem C3_missing_report (c : DataIntegrityChecker) (t : Table)
    (h : c.data = some t) :
    (0 < totalMissing t →
      c.check_missing_values = (c, [Msg.missingWarning (missingCounts t)])) ∧
    (totalMissing t = 0 → c.check_missing_values = (c, [Msg.noMissing])) ∧
    (missingCounts t).length = t.cols.length ∧
    (∀ j, j < t.cols.length →
      (missingCounts t).getD j ("", 0) =
        (t.cols.getD j "", t.rows.countP (fun r => r.getD j Cell.na == Cell.na))) := by
  refine ⟨?_, ?_, ?_, ?_⟩
  · intro hpos
    simp [DataIntegrityChecker.check_missing_values, missingBody, h, hpos]
  · intro hzero
    simp [DataIntegrityChecker.check_missing_values, missingBody, h, hzero]
  · simp [missingCounts]
  · intro j hj
    simp only [missingCounts]
    rw [getD_map_range _ _ hj]
    congr 1
    rw [colCells, List.count_eq_countP, List.countP_map]
    rfl

theorem C3_missing_report_witness :
    cMix.check_missing_values = (cMix, [Msg.missingWarning (missingCounts tMix)]) :=
  (C3_missing_report cMix tMix rfl).1 (by decide)

/-- C4: the duplicate check flags a row exactly when some earlier row
agrees with it on every column, reports the number of flagged rows in a
warning when that number is nonzero, and prints the all-clear message when
the table has no duplicate rows. -/
theorem C4_duplicate_report (c : DataIntegrityChecker) (t : Table)
    (h : c.data = some t)
    (hrect : ∀ r ∈ t.rows, r.length = t.cols.length) :
    (0 < numDups t → c.check_duplicates = (c, [Msg.dupWarning (numDups t)])) ∧
    (numDups t = 0 → c.check_duplicates = (c, [Msg.noDup])) ∧
    (dupFlags t.rows).length = t.rows.length ∧
    (∀ i, i < t.rows.length →
      ((dupFlags t.rows).getD i false = true ↔
        ∃ k, k < i ∧ ∀ j, j < t.cols.length →
          (t.rows.getD k []).getD j Cell.na = (t.rows.getD i []).getD j Cell.na)) := by
  have hlenM : ∀ i, i < t.rows.length → (t.rows.getD i []).length = t.cols.length :=
    fun i hi => hrect _ (getD_mem t.rows [] hi)
  refine ⟨?_, ?_, ?_, ?_⟩
  · intro hpos
    simp only [numDups] at hpos
    have hmem : true ∈ dupFlags t.rows := List.count_pos_iff.mp hpos
    have hany : (dupFlags t.rows).any (fun b => b) = true :=
      List.any_eq_true.mpr ⟨true, hmem, rfl⟩
    simp [DataIntegrityChecker.check_duplicates, dupBody, h, hany]
  · intro hzero
    simp only [numDups] at hzero
    have hany : (dupFlags t.rows).any (fun b => b) = false := by
      cases hb : (dupFlags t.rows).any (fun b => b) with
      | false => rfl
      | true =>
        rcases List.any_eq_true.mp hb with ⟨x, hx, hxe⟩
        have hx' : true ∈ dupFlags t.rows := by
          cases x with
          | true => exact hx
          | false => exact absurd hxe (by decide)
        have := List.count_pos_iff.mpr hx'
        omega
    simp [DataIntegrityChecker.check_duplicates, dupBody, h, hany]
  · exact dupFlagsAux_length t.rows []
  · intro i hi
    have hstep := dupFlagsAux_getD t.rows [] i hi
    rw [List.nil_append] at hstep
    simp only [dupFlags]
    rw [hstep, mem_take_iff_getD t.rows [] i (le_of_lt hi)]
    constructor
    · rintro ⟨k, hki, hval⟩
      exact ⟨k, hki, fun j hj => by rw [hval]⟩
    · rintro ⟨k, hki, hp⟩
      exact ⟨k, hki,
        (list_eq_iff_getD (hlenM k (lt_trans hki hi)) (hlenM i hi)).mpr hp⟩

theorem C4_duplicate_report_witness :
    cMix.check_duplicates = (cMix, [Msg.dupWarning (numDups tMix)]) :=
  (C4_duplicate_report cMix tMix rfl (by decide)).1 (by decide)

/-- C5: an exception inside a check is caught at that check's boundary and
logged, never propagated: when the outlier body fails (for example on a
table with no numeric columns) the run still completes with no propagated
failure, the missing-value and duplicate reports are still in the output,
and the outlier failure appears only as a logged message. -/
theorem C5_check_failure_nonfatal (fs : FS) (F : IsolationForestModel)
    (c c1 : DataIntegrityChecker) (log1 : List Msg) (e : PyErr)
    (h1 : c.load_data fs = (c1, log1, none))
    (h2 : outliersBody F c1.data = Except.error e) :
    c.run_checks fs F =
      (c1,
       log1 ++ c1.check_missing_values.2 ++ c1.check_duplicates.2 ++
         [Msg.outlierError e],
       none) := by
  unfold DataIntegrityChecker.run_checks
  rw [h1]
  simp [check_missing_values_state, check_duplicates_state,
    DataIntegrityChecker.check_outliers, h2]

theorem C5_check_failure_nonfatal_witness :
    (DataIntegrityChecker.mkChecker "p").run_checks fsText constForest =
      (cText,
       [Msg.loaded, Msg.noMissing, Msg.noDup, Msg.outlierError PyErr.valueError],
       none) :=
  C5_check_failure_nonfatal fsText constForest
    (DataIntegrityChecker.mkChecker "p") cText [Msg.loaded] PyErr.valueError rfl rfl

/-- C7: the outlier check is deterministic: its report depends only on the
loaded table (the contamination rate and random seed it passes to the
library are the fixed constants `0.01` and `42`), so two checkers holding
the same table report identically, and running the check a second time on
the same instance reproduces the first report. -/
theorem C7_outliers_deterministic (F : IsolationForestModel)
    (c c' : DataIntegrityChecker) (h : c.data = c'.data) :
    (c.check_outliers F).2 = (c'.check_outliers F).2 ∧
    ((c.check_outliers F).1.check_outliers F).2 = (c.check_outliers F).2 := by
  exact ⟨check_outliers_msgs_congr F h,
    check_outliers_msgs_congr F (check_outliers_state_data F c)⟩

theorem C7_outliers_deterministic_witness :
    (cNum.check_outliers constForest).2 = (cNum.check_outliers constForest).2 ∧
    ((cNum.check_outliers constForest).1.check_outliers constForest).2 =
      (cNum.check_outliers constForest).2 :=
  C7_outliers_deterministic constForest cNum cNum rfl

/-- C8: in a run whose load succeeds, the table is the one the loader
parsed from the file, it is stored exactly once at load time, and every
check leaves it untouched: the data field still holds that same table
after the missing-value check, after the duplicate check, after the
outlier check, and at the end of the run. -/
theorem C8_load_once_immutable (fs : FS) (F : IsolationForestModel)
    (c c1 : DataIntegrityChecker) (log1 : List Msg) (t : Table)
    (h1 : c.load_data fs = (c1, log1, none)) (h2 : c1.data = some t) :
    (∃ s, fs c.file_path = some s ∧ read_csv s = Except.ok t ∧
      c1 = { c with data := some t }) ∧
    c1.check_missing_values.1.data = some t ∧
    c1.check_missing_values.1.check_duplicates.1.data = some t ∧
    (c1.check_missing_values.1.check_duplicates.1.check_outliers F).1.data = some t ∧
    (c.run_checks fs F).1.data = some t := by
  refine ⟨?_, ?_, ?_, ?_, ?_⟩
  · cases hf : fs c.file_path with
    | none =>
      simp [DataIntegrityChecker.load_data, hf] at h1
    | some s =>
      cases hr : read_csv s with
      | error e =>
        simp [DataIntegrityChecker.load_data, hf, hr] at h1
      | ok t1 =>
        simp only [DataIntegrityChecker.load_data, hf, hr, Prod.mk.injEq] at h1
        obtain ⟨hc1, hlog, -⟩ := h1
        have ht1 : t1 = t := by
          have hd : ({ c with data := some t1 } : DataIntegrityChecker).data = some t := by
            rw [hc1]; exact h2
          simpa using hd
        refine ⟨s, rfl, ?_, ?_⟩
        · rw [hr, ht1]
        · rw [← hc1, ht1]
  · rw [check_missing_values_state]; exact h2
  · rw [check_missing_values_state, check_duplicates_state]; exact h2
  · rw [check_missing_values_state, check_duplicates_state,
      check_outliers_state_data]
    exact h2
  · unfold DataIntegrityChecker.run_checks
    rw [h1]
    simp [check_missing_values_state, check_duplicates_state,
      check_outliers_state_data, h2]

theorem C8_load_once_immutable_witness :
    (∃ s, fsNum ((DataIntegrityChecker.mkChecker "data.csv").file_path) = some s ∧
      read_csv s = Except.ok tNum ∧
      cNum = { DataIntegrityChecker.mkChecker "data.csv" with data := some tNum }) ∧
    cNum.check_missing_values.1.data = some tNum ∧
    cNum.check_missing_values.1.check_duplicates.1.data = some tNum ∧
    (cNum.check_missing_values.1.check_duplicates.1.check_outliers constForest).1.data =
      some tNum ∧
    ((DataIntegrityChecker.mkChecker "data.csv").run_checks fsNum constForest).1.data =
      some tNum :=
  C8_load_once_immutable fsNum constForest (DataIntegrityChecker.mkChecker "data.csv")
    cNum [Msg.loaded] tNum rfl rfl

/-- C6: on a loaded table whose numeric subview is nonempty and `NaN`-free,
the outlier check standardizes each numeric column (any column of nonzero
variance ends with mean 0 and population variance 1), hands the
standardized rows to the forest with contamination `0.01` and seed `42`,
and flags a number of rows that is at most the number `R` of table rows
(it is a natural number, hence non-negative). -/
theorem C6_outlier_check (F : IsolationForestModel) (c : DataIntegrityChecker)
    (t : Table) (h : c.data = some t)
    (h1 : t.rows.isEmpty = false)
    (h2 : (numericIdx t).isEmpty = false)
    (h3 : hasNaNumeric t = false) :
    c.check_outliers F =
      ({ c with scaler := some (fittedParams (realRows t) (numericIdx t).length) },
        if 0 < numOutliers F t then [Msg.outlierWarning (numOutliers F t)]
        else [Msg.noOutliers]) ∧
    outlierLabels F t = F.predict (1 / 100) 42 (scaledRows (realRows t)) ∧
    numOutliers F t ≤ t.rows.length ∧
    (∀ j, j < (numericIdx t).length →
      variancePop (column (realRows t) j) ≠ 0 →
        mean (column (scaledRows (realRows t)) j) = 0 ∧
        variancePop (column (scaledRows (realRows t)) j) = 1) := by
  refine ⟨?_, rfl, ?_, ?_⟩
  · simp [DataIntegrityChecker.check_outliers, outliersBody, h, h1, h2, h3]
  · have hcount : numOutliers F t = (outlierLabels F t).count (-1) := rfl
    rw [hcount, ← length_outlierLabels F t]
    exact List.count_le_length _ _
  · intro j hj hvar
    have hcol : column (scaledRows (realRows t)) j =
        standardizeList (column (realRows t) j) :=
      column_scaledRows (realRows t) (numericIdx t).length (realRows_rect t) hj
    have hne : column (realRows t) j ≠ [] := by
      intro h0
      exact hvar (h0 ▸ variancePop_nil)
    rw [hcol]
    exact ⟨mean_standardizeList _ hne, variancePop_standardizeList _ hvar⟩

theorem C6_outlier_check_witness :
    numOutliers constForest tNum ≤ tNum.rows.length :=
  (C6_outlier_check constForest cNum tNum rfl rfl (by decide) (by decide)).2.2.1

/-- C9: a CSV file the reader accepts yields a table stored by `load_data`
whose column count is the header's field count, whose row count is the
number of non-blank data lines, and whose rows all have exactly that many
columns. -/
theorem C9_loaded_shape (fs : FS) (c : DataIntegrityChecker) (s : String)
    (t : Table) (h1 : fs c.file_path = some s)
    (h2 : read_csv s = Except.ok t) :
    (c.load_data fs).1.data = some t ∧
    t.cols.length = (splitOnChar ',' ((csvLines s).headD [])).length ∧
    t.rows.length = (csvLines s).length - 1 ∧
    (∀ r ∈ t.rows, r.length = t.cols.length) := by
  refine ⟨by simp [DataIntegrityChecker.load_data, h1, h2], ?_⟩
  cases hl : csvLines s with
  | nil => simp [read_csv, hl] at h2
  | cons header dataLines =>
    simp only [read_csv, hl] at h2
    split at h2
    · exact absurd h2 (by simp)
    · have hts := Except.ok.inj h2
      refine ⟨?_, ?_, ?_⟩
      · rw [← hts]
        simp
      · rw [← hts]
        simp
      · intro r hr
        rw [← hts] at hr ⊢
        simp only at hr
        rcases List.mem_map.mp hr with ⟨row, -, rfl⟩
        simp

theorem C9_loaded_shape_witness :
    ((DataIntegrityChecker.mkChecker "data.csv").load_data fsNum).1.data = some tNum ∧
    tNum.cols.length =
      (splitOnChar ',' ((csvLines "a,b\n1,2\n3,4\n100,6").headD [])).length ∧
    tNum.rows.length = (csvLines "a,b\n1,2\n3,4\n100,6").length - 1 ∧
    (∀ r ∈ tNum.rows, r.length = tNum.cols.length) :=
  C9_loaded_shape fsNum (DataIntegrityChecker.mkChecker "data.csv")
    "a,b\n1,2\n3,4\n100,6" tNum rfl rfl

end DataIntegrity
